import Mathlib

/-!
Verification development for the KoreanStock recommendation engine.

Shallow embedding of the numeric core of the repository:
  core/engine/prediction_model.py   (ensemble fallback modes)
  core/engine/recommendation_agent.py  (composite score, upsert persistence)
  src/koreanstocks/core/engine/indicators.py  (technical composite score)
  src/koreanstocks/core/utils/backtester.py   (strategy replay metrics)
  src/koreanstocks/core/utils/outcome_tracker.py  (horizon outcome recording)
  src/koreanstocks/core/engine/news_agent.py  (news deduplication)

Machine floats are modelled as exact rationals; pandas NaN cells are
modelled as Option.none.  Division by a zero previous close (which pandas
turns into an infinity) is also modelled as none and is excluded by the
positivity hypotheses of the theorems that touch it.
-/

/-- Round-half-to-even on rationals, the tie rule of Python's builtin round. -/
def roundHalfEven (q : ℚ) : ℤ :=
  if q - ⌊q⌋ < 1/2 then ⌊q⌋
  else if 1/2 < q - ⌊q⌋ then ⌊q⌋ + 1
  else if ⌊q⌋ % 2 = 0 then ⌊q⌋ else ⌊q⌋ + 1

/-- Python round(x, 2): round to two decimal places, ties to even. -/
def pyRound2 (q : ℚ) : ℚ := (roundHalfEven (q * 100) : ℚ) / 100

/-- numpy clip(x, lo, hi). -/
def npClip (x lo hi : ℚ) : ℚ := min (max x lo) hi

/-- Python int(x) on a float: truncation toward zero. -/
def pyInt (q : ℚ) : ℤ := if 0 ≤ q then ⌊q⌋ else ⌈q⌉

/-!  Prediction ensemble fallback — core/engine/prediction_model.py, predict,
     the model_count == 0 branch (lines 217-231).  The inputs rsi, macd_diff
     and price_sma_20_ratio are the values of the latest feature row; the
     feature frame always carries these columns, so the .get defaults of the
     source are never exercised. -/

structure PredictResult where
  ensemble_score : ℚ
  model_count : ℕ
  note : String
deriving DecidableEq

/-- The closed-form heuristic of the no-model, no-fallback branch:
    50 + (50 - rsi)*0.3 + (10 if macd_diff > 0 else -10) + (ratio - 1)*50. -/
def heuristicScore (rsi macd_diff price_sma_20_ratio : ℚ) : ℚ :=
  50 + (50 - rsi) * (3/10) + (if 0 < macd_diff then 10 else -10)
    + (price_sma_20_ratio - 1) * 50

/-- predict with model_count == 0: technical fallback if supplied, else the
    feature heuristic; both clipped to [0,100] and rounded to 2 decimals. -/
def predictFallback (fallback_score : Option ℚ)
    (rsi macd_diff price_sma_20_ratio : ℚ) : PredictResult :=
  match fallback_score with
  | some fb =>
      { ensemble_score := pyRound2 (npClip fb 0 100)
        model_count := 0
        note := "fallback_to_tech_score" }
  | none =>
      { ensemble_score :=
          pyRound2 (npClip (heuristicScore rsi macd_diff price_sma_20_ratio) 0 100)
        model_count := 0
        note := "fallback_heuristic" }

/-!  Composite recommendation score — core/engine/recommendation_agent.py,
     _composite_score (lines 14-33). -/

structure AnalysisResult where
  tech_score : ℚ
  ml_score : ℚ
  sentiment_score : ℚ
  ml_model_count : ℕ
deriving DecidableEq

/-- max(0.0, min(100.0, (sentiment_raw + 100.0) / 2.0)). -/
def sentimentNorm (s : ℚ) : ℚ := max 0 (min 100 ((s + 100) / 2))

/-- _composite_score: tech 0.65 + sentiment 0.35 when no ML model is active,
    else tech 0.40 + ml 0.35 + sentiment 0.25. -/
def composite_score (x : AnalysisResult) : ℚ :=
  if x.ml_model_count = 0 then
    x.tech_score * (65/100) + sentimentNorm x.sentiment_score * (35/100)
  else
    x.tech_score * (40/100) + x.ml_score * (35/100)
      + sentimentNorm x.sentiment_score * (25/100)

/-!  Technical composite score — src/koreanstocks/core/engine/indicators.py,
     IndicatorCalculator.get_composite_score (lines 72-142), as a function of
     the last row of the indicator frame.  sma_60 is Option (column absent or
     NaN → the no-sma_60 branch); volume and vol_sma_20 are Option (a missing
     column raises KeyError, which the source catches and ignores). -/

structure IndicatorRow where
  close : ℚ
  sma_5 : ℚ
  sma_20 : ℚ
  sma_60 : Option ℚ
  macd : ℚ
  macd_signal : ℚ
  rsi : ℚ
  bb_high : ℚ
  bb_low : ℚ
  volume : Option ℚ
  vol_sma_20 : Option ℚ
deriving DecidableEq

/-- Trend component (max 40): close vs sma20, sma5 vs sma20, then MACD
    (15 + 5 with sma_60 present, 20 without). -/
def trendScore (r : IndicatorRow) : ℚ :=
  (if r.sma_20 < r.close then 10 else 0)
  + (if r.sma_20 < r.sma_5 then 10 else 0)
  + (match r.sma_60 with
     | some s =>
         (if r.macd_signal < r.macd then 15 else 0)
         + (if s < r.close then 5 else 0)
     | none => if r.macd_signal < r.macd then 20 else 0)

/-- Momentum component (max 30), tiered by RSI. -/
def momScore (r : IndicatorRow) : ℚ :=
  if 45 ≤ r.rsi ∧ r.rsi ≤ 65 then 30
  else if 35 ≤ r.rsi ∧ r.rsi < 45 then 22
  else if 65 < r.rsi ∧ r.rsi ≤ 75 then 18
  else if 30 ≤ r.rsi ∧ r.rsi < 35 then 12
  else if 75 < r.rsi then 8
  else 4

/-- Bollinger-band position, 0.5 when the band has zero width. -/
def bbPos (r : IndicatorRow) : ℚ :=
  if r.bb_high - r.bb_low ≠ 0 then (r.close - r.bb_low) / (r.bb_high - r.bb_low)
  else 1/2

/-- Band-position part of the third component (max 25), zone table depending
    on the MACD trend direction. -/
def bbScore (r : IndicatorRow) : ℚ :=
  if r.macd_signal < r.macd then
    if 2/5 ≤ bbPos r ∧ bbPos r ≤ 3/4 then 25
    else if 3/4 < bbPos r ∧ bbPos r ≤ 9/10 then 18
    else if 1/5 ≤ bbPos r ∧ bbPos r < 2/5 then 14
    else if 9/10 < bbPos r then 8
    else 3
  else
    if 1/5 ≤ bbPos r ∧ bbPos r ≤ 1/2 then 25
    else if 1/2 < bbPos r ∧ bbPos r ≤ 7/10 then 18
    else if 1/10 ≤ bbPos r ∧ bbPos r < 1/5 then 12
    else if 7/10 < bbPos r ∧ bbPos r < 9/10 then 8
    else 3

/-- Volume-confirmation bonus (5 when volume is at least 1.5x its 20-day
    average; 0 when either column is missing). -/
def volBonus (r : IndicatorRow) : ℚ :=
  match r.volume, r.vol_sma_20 with
  | some v, some vs => if 0 < vs ∧ 3/2 ≤ v / vs then 5 else 0
  | _, _ => 0

/-- get_composite_score on the last indicator row. -/
def get_composite_score (r : IndicatorRow) : ℚ :=
  trendScore r + momScore r + (bbScore r + volBonus r)

/-!  Recommendation persistence — core/engine/recommendation_agent.py,
     RecommendationAgent._save_to_db (lines 114-147).  The recommendations
     table is modelled as a list of rows; DELETE WHERE code AND session_date
     followed by INSERT models the upsert-by-replace. -/

/-- One analysis dict handed to _save_to_db: its composite-score inputs plus
    the ai_opinion fields the insert reads. -/
structure RecInput extends AnalysisResult where
  code : String
  action : String
  summary : String
  target_price : ℚ
deriving DecidableEq

/-- One row of the recommendations table (columns of the INSERT). -/
structure RecRow where
  code : String
  rtype : String
  score : ℚ
  reason : String
  target_price : ℚ
  source : String
  session_date : String
deriving DecidableEq

/-- The row the INSERT statement writes for one recommendation. -/
def mkRow (rec : RecInput) (session_date : String) : RecRow :=
  { code := rec.code
    rtype := rec.action
    score := pyRound2 (composite_score rec.toAnalysisResult)
    reason := rec.summary
    target_price := rec.target_price
    source := "AI_RECOMMENDER_V2"
    session_date := session_date }

/-- DELETE FROM recommendations WHERE code = ? AND session_date = ?. -/
def deleteKey : List RecRow → String → String → List RecRow
  | [], _, _ => []
  | r :: rest, c, d =>
      if r.code = c ∧ r.session_date = d then deleteKey rest c d
      else r :: deleteKey rest c d

/-- The rows of the table holding a given (code, session_date) key. -/
def keyRows : List RecRow → String → String → List RecRow
  | [], _, _ => []
  | r :: rest, c, d =>
      if r.code = c ∧ r.session_date = d then r :: keyRows rest c d
      else keyRows rest c d

/-- _save_to_db: for each recommendation, delete the (code, session_date) key
    then insert the fresh row. -/
def save_to_db (recs : List RecInput) (session_date : String)
    (db : List RecRow) : List RecRow :=
  recs.foldl (fun acc rec => deleteKey acc rec.code session_date
    ++ [mkRow rec session_date]) db

/-- Invariant: at most one recommendation row per (code, session_date). -/
def atMostOnePerKey (db : List RecRow) : Prop :=
  ∀ c d, (keyRows db c d).length ≤ 1

/-!  Outcome tracking — src/koreanstocks/core/utils/outcome_tracker.py,
     record_outcomes (lines 131-199), processing of one pending record.
     The market-data source is a function from a horizon length to the close
     price that many trading days after the session date, none while the
     horizon has not yet elapsed (_get_price_after_n_trading_days; the actual
     date it also returns is only logged).  A pending record whose price
     column is non-NULL has an outcomes row, so the INSERT .. DO NOTHING is a
     no-op there and the UPDATE touches exactly the keys of the updates
     dict. -/

/-- _is_correct: 1 when the action called the realized return correctly. -/
def is_correct (action : String) (return_pct : ℚ) : ℕ :=
  if action = "BUY" then (if 0 < return_pct then 1 else 0)
  else if action = "SELL" then (if return_pct < 0 then 1 else 0)
  else (if -5 < return_pct then 1 else 0)

/-- The three values written for one horizon. -/
structure HorizonOutcome where
  price : ℚ
  return_pct : ℚ
  correct : ℕ
deriving DecidableEq

/-- One row of recommendation_outcomes (the horizon columns). -/
structure OutcomeRow where
  price_5d : Option ℚ
  return_5d : Option ℚ
  correct_5d : Option ℕ
  price_10d : Option ℚ
  return_10d : Option ℚ
  correct_10d : Option ℕ
  price_20d : Option ℚ
  return_20d : Option ℚ
  correct_20d : Option ℕ
  target_hit : Option ℕ
deriving DecidableEq

/-- One iteration of the horizon loop.  Outer none: the price is not yet
    available and the loop breaks.  some none: the horizon was already
    recorded (continue, no update).  some (some h): fresh update. -/
def horizonStep (fetch : ℕ → Option ℚ) (action : String) (entry_price : ℚ)
    (existing : Option ℚ) (n : ℕ) : Option (Option HorizonOutcome) :=
  match existing with
  | some _ => some none
  | none =>
      match fetch n with
      | none => none
      | some price =>
          some (some
            { price := price
              return_pct := pyRound2 ((price - entry_price) / entry_price * 100)
              correct := is_correct action ((price - entry_price) / entry_price * 100) })

/-- The 5-day entry of the updates dict built by the horizon loop. -/
def update5 (fetch : ℕ → Option ℚ) (action : String) (entry_price : ℚ)
    (row : OutcomeRow) : Option HorizonOutcome :=
  match horizonStep fetch action entry_price row.price_5d 5 with
  | none => none
  | some u => u

/-- The 10-day entry of the updates dict: none when the loop already broke at
    the 5-day horizon. -/
def update10 (fetch : ℕ → Option ℚ) (action : String) (entry_price : ℚ)
    (row : OutcomeRow) : Option HorizonOutcome :=
  match horizonStep fetch action entry_price row.price_5d 5 with
  | none => none
  | some _ =>
      match horizonStep fetch action entry_price row.price_10d 10 with
      | none => none
      | some u => u

/-- The 20-day entry of the updates dict: none when the loop broke at the
    5-day or 10-day horizon. -/
def update20 (fetch : ℕ → Option ℚ) (action : String) (entry_price : ℚ)
    (row : OutcomeRow) : Option HorizonOutcome :=
  match horizonStep fetch action entry_price row.price_5d 5 with
  | none => none
  | some _ =>
      match horizonStep fetch action entry_price row.price_10d 10 with
      | none => none
      | some _ =>
          match horizonStep fetch action entry_price row.price_20d 20 with
          | none => none
          | some u => u

/-- target_hit entry: only when price_20d is among the updates, a positive
    target price exists and the action is BUY or SELL. -/
def targetHitUpdate (action : String) (target_price : Option ℚ)
    (u20 : Option HorizonOutcome) : Option ℕ :=
  match u20, target_price with
  | some h, some t =>
      if 0 < t ∧ (action = "BUY" ∨ action = "SELL") then
        if action = "BUY" then (if t ≤ h.price then some 1 else some 0)
        else (if h.price ≤ t then some 1 else some 0)
      else none
  | _, _ => none

/-- Apply one horizon's update to its three columns (SET only on fresh
    updates; absent keys leave the column untouched). -/
def applyHorizon (u : Option HorizonOutcome) (p r : Option ℚ) (c : Option ℕ) :
    Option ℚ × Option ℚ × Option ℕ :=
  match u with
  | some h => (some h.price, some h.return_pct, some h.correct)
  | none => (p, r, c)

/-- record_outcomes restricted to one pending record: compute the updates
    dict and apply it to the stored row. -/
def record_outcomes_row (fetch : ℕ → Option ℚ) (action : String)
    (entry_price : ℚ) (target_price : Option ℚ) (row : OutcomeRow) : OutcomeRow :=
  { price_5d := (applyHorizon (update5 fetch action entry_price row)
      row.price_5d row.return_5d row.correct_5d).1
    return_5d := (applyHorizon (update5 fetch action entry_price row)
      row.price_5d row.return_5d row.correct_5d).2.1
    correct_5d := (applyHorizon (update5 fetch action entry_price row)
      row.price_5d row.return_5d row.correct_5d).2.2
    price_10d := (applyHorizon (update10 fetch action entry_price row)
      row.price_10d row.return_10d row.correct_10d).1
    return_10d := (applyHorizon (update10 fetch action entry_price row)
      row.price_10d row.return_10d row.correct_10d).2.1
    correct_10d := (applyHorizon (update10 fetch action entry_price row)
      row.price_10d row.return_10d row.correct_10d).2.2
    price_20d := (applyHorizon (update20 fetch action entry_price row)
      row.price_20d row.return_20d row.correct_20d).1
    return_20d := (applyHorizon (update20 fetch action entry_price row)
      row.price_20d row.return_20d row.correct_20d).2.1
    correct_20d := (applyHorizon (update20 fetch action entry_price row)
      row.price_20d row.return_20d row.correct_20d).2.2
    target_hit :=
      match targetHitUpdate action target_price
          (update20 fetch action entry_price row) with
      | some v => some v
      | none => row.target_hit }

/-- A fully recorded sample outcome row (used by the C8 witness). -/
def sampleOutcomeRow : OutcomeRow :=
  { price_5d := some 105, return_5d := some 5, correct_5d := some 1
    price_10d := some 110, return_10d := some 10, correct_10d := some 1
    price_20d := some 120, return_20d := some 20, correct_20d := some 1
    target_hit := some 1 }

/-- A first-run sample recommendation (used by the C7 witness). -/
def sampleRec1 : RecInput :=
  { tech_score := 70, ml_score := 60, sentiment_score := 10, ml_model_count := 2
    code := "005930", action := "BUY", summary := "first run", target_price := 80000 }

/-- A second-run sample recommendation for the same entity code (used by the
    C7 witness). -/
def sampleRec2 : RecInput :=
  { tech_score := 55, ml_score := 48, sentiment_score := -20, ml_model_count := 0
    code := "005930", action := "HOLD", summary := "second run", target_price := 75000 }

/-!  News deduplication — src/koreanstocks/core/engine/news_agent.py,
     NewsAgent._deduplicate_news (lines 159-203).  An item is modelled by the
     domain of its originallink/link (urlparse netloc, empty when absent), the
     token set of its title (re.split on non-word runs, empty strings
     removed), and its age in days; the fetch hands the list over newest
     first (the Naver API sorts by date), which the same-domain pass relies
     on. -/

structure NewsItem where
  domain : String
  titleTokens : Finset String
  days_ago_int : ℕ
deriving DecidableEq

/-- Token-set Jaccard similarity len(a ∩ b) / len(a ∪ b). -/
def jaccard (a b : Finset String) : ℚ :=
  ((a ∩ b).card : ℚ) / ((a ∪ b).card : ℚ)

/-- Pass 1: keep only the first item per non-empty domain (the most recent,
    the input being newest first); items without a domain always pass. -/
def domainDedup : List String → List NewsItem → List NewsItem
  | _, [] => []
  | seen, item :: rest =>
      if item.domain = "" then item :: domainDedup seen rest
      else if item.domain ∈ seen then domainDedup seen rest
      else item :: domainDedup (item.domain :: seen) rest

/-- Pass 2: drop an item whose title tokens have Jaccard similarity above
    0.75 with any previously kept title (both sets non-empty, matching the
    Python truthiness guard). -/
def titleDedup : List (Finset String) → List NewsItem → List NewsItem
  | _, [] => []
  | seenSets, item :: rest =>
      if ∃ seen ∈ seenSets, item.titleTokens.Nonempty ∧ seen.Nonempty ∧
          (3/4 : ℚ) < jaccard item.titleTokens seen then
        titleDedup seenSets rest
      else item :: titleDedup (item.titleTokens :: seenSets) rest

/-- _deduplicate_news: domain pass then title-similarity pass. -/
def deduplicate_news (items : List NewsItem) : List NewsItem :=
  titleDedup [] (domainDedup [] items)

/-- Sample news items for the C9 witness: two different domains whose titles
    share four of five tokens (Jaccard 0.8), and two items of one domain. -/
def newsA : NewsItem :=
  { domain := "news1.example", titleTokens := {"k1", "k2", "k3", "k4"}, days_ago_int := 0 }

/-- Near-duplicate of newsA from another domain. -/
def newsB : NewsItem :=
  { domain := "news2.example", titleTokens := {"k1", "k2", "k3", "k4", "k5"}, days_ago_int := 1 }

/-- Fresh item of a shared domain. -/
def newsC : NewsItem :=
  { domain := "samedomain.example", titleTokens := {"p1"}, days_ago_int := 0 }

/-- Older item of the same domain as newsC. -/
def newsD : NewsItem :=
  { domain := "samedomain.example", titleTokens := {"q1"}, days_ago_int := 2 }

/-!  Backtester — src/koreanstocks/core/utils/backtester.py, Backtester.run
     (lines 14-68), over a close-price list and a signal list, indexed
     columnwise like the pandas frame.  The first row's pct_change and
     shifted signal are NaN (none); a zero previous close (pandas infinity)
     is also modelled as none and ruled out by positivity hypotheses.  The
     Sharpe ratio needs a real square root and no claim touches it, so it is
     not embedded. -/

/-- config.TRANSACTION_FEE = 0.00015. -/
def transaction_fee : ℚ := 15/100000

/-- config.TAX_RATE = 0.0018. -/
def tax_rate : ℚ := 18/10000

/-- Close price at row i (getD matches positional access on the frame). -/
def priceAt (closes : List ℚ) (i : ℕ) : ℚ := closes.getD i 0

/-- Signal at row i. -/
def signalAt (signals : List ℚ) (i : ℕ) : ℚ := signals.getD i 0

/-- close.pct_change(): NaN on the first row. -/
def pctChange (closes : List ℚ) (i : ℕ) : Option ℚ :=
  if i = 0 then none
  else if priceAt closes (i-1) = 0 then none
  else some (priceAt closes i / priceAt closes (i-1) - 1)

/-- signal.shift(1): NaN on the first row. -/
def shiftedSignal (signals : List ℚ) (i : ℕ) : Option ℚ :=
  if i = 0 then none else some (signalAt signals (i-1))

/-- signal.shift(1) * pct_change, NaN-propagating. -/
def rawStrategyReturn (closes signals : List ℚ) (i : ℕ) : Option ℚ :=
  match shiftedSignal signals i, pctChange closes i with
  | some s, some p => some (s * p)
  | _, _ => none

/-- signal.diff().abs().fillna(0). -/
def tradeChange (signals : List ℚ) (i : ℕ) : ℚ :=
  if i = 0 then 0 else |signalAt signals i - signalAt signals (i-1)|

/-- strategy_returns column after the trading-cost deduction on rows whose
    signal changed. -/
def strategyReturn (closes signals : List ℚ) (i : ℕ) : Option ℚ :=
  if 0 < tradeChange signals i then
    (rawStrategyReturn closes signals i).map (fun r => r - (transaction_fee + tax_rate))
  else rawStrategyReturn closes signals i

/-- strategy_returns.fillna(0), the series fed into the cumulative product. -/
def filledReturn (closes signals : List ℚ) (i : ℕ) : ℚ :=
  (strategyReturn closes signals i).getD 0

/-- (1 + strategy_returns).cumprod(). -/
def cumprodReturn (closes signals : List ℚ) (i : ℕ) : ℚ :=
  ∏ j ∈ Finset.range (i+1), (1 + filledReturn closes signals j)

/-- cum_returns with the first row pinned to 1.0. -/
def cumReturn (closes signals : List ℚ) (i : ℕ) : ℚ :=
  if i = 0 then 1 else cumprodReturn closes signals i

/-- total_return_pct = round((last cum_return - 1) * 100, 2). -/
def totalReturnPct (closes signals : List ℚ) : ℚ :=
  pyRound2 ((cumReturn closes signals (closes.length - 1) - 1) * 100)

/-- cum_returns.cummax(). -/
def rollingMax (closes signals : List ℚ) : ℕ → ℚ
  | 0 => cumReturn closes signals 0
  | i+1 => max (rollingMax closes signals i) (cumReturn closes signals (i+1))

/-- Running minimum of the drawdown column cum/cummax - 1. -/
def minDrawdown (closes signals : List ℚ) : ℕ → ℚ
  | 0 => cumReturn closes signals 0 / rollingMax closes signals 0 - 1
  | i+1 => min (minDrawdown closes signals i)
      (cumReturn closes signals (i+1) / rollingMax closes signals (i+1) - 1)

/-- mdd_pct = round(min drawdown * 100, 2). -/
def mddPct (closes signals : List ℚ) : ℚ :=
  pyRound2 (minDrawdown closes signals (closes.length - 1) * 100)

/-- Pandas comparison strategy_returns > 0 on a cell: False on NaN. -/
def posDayB (o : Option ℚ) : Bool :=
  match o with
  | some v => decide (0 < v)
  | none => false

/-- Pandas comparison strategy_returns != 0 on a cell: True on NaN. -/
def nzDayB (o : Option ℚ) : Bool :=
  match o with
  | some v => decide (v ≠ 0)
  | none => true

/-- (strategy_returns > 0).sum(). -/
def winCount (closes signals : List ℚ) : ℕ :=
  ((Finset.range closes.length).filter
    (fun i => posDayB (strategyReturn closes signals i) = true)).card

/-- (strategy_returns != 0).sum(). -/
def nonzeroCount (closes signals : List ℚ) : ℕ :=
  ((Finset.range closes.length).filter
    (fun i => nzDayB (strategyReturn closes signals i) = true)).card

/-- win_rate entry of the result dict: the positive/non-zero ratio (0 when
    the denominator count is zero) times 100, rounded. -/
def winRatePct (closes signals : List ℚ) : ℚ :=
  pyRound2 ((if 0 < nonzeroCount closes signals then
    (winCount closes signals : ℚ) / (nonzeroCount closes signals : ℚ)
  else 0) * 100)

/-- final_capital = int(last cum_return * capital). -/
def finalCapital (closes signals : List ℚ) (capital : ℚ) : ℤ :=
  pyInt (cumReturn closes signals (closes.length - 1) * capital)

/-- The metrics of the run result dict (minus the Sharpe ratio and the daily
    frame). -/
structure BTResult where
  total_return_pct : ℚ
  mdd_pct : ℚ
  win_rate : ℚ
  final_capital : ℤ
deriving DecidableEq

/-- Backtester.run: none models the error dict returned on empty data or a
    length mismatch. -/
def backtest_run (closes signals : List ℚ) (capital : ℚ) : Option BTResult :=
  if closes.isEmpty ∨ closes.length ≠ signals.length then none
  else
    some { total_return_pct := totalReturnPct closes signals
           mdd_pct := mddPct closes signals
           win_rate := winRatePct closes signals
           final_capital := finalCapital closes signals capital }

/-- Modelled from the spec, for the refinement comparison of the win-rate
    claim: the daily strategy return in the spec's words, signal(t-1) times
    pct_change(close, t), minus the fee-plus-tax cost when the signal
    changed from the prior day (meaningful for 0 < i). -/
def specDailyReturn (closes signals : List ℚ) (i : ℕ) : ℚ :=
  signalAt signals (i-1) * (priceAt closes i / priceAt closes (i-1) - 1) -
    (if signalAt signals i ≠ signalAt signals (i-1) then transaction_fee + tax_rate else 0)

/-- Modelled from the spec: the number of days with a positive daily
    strategy return. -/
def specPosDays (closes signals : List ℚ) : ℕ :=
  ((Finset.range closes.length).filter
    (fun i => 0 < i ∧ 0 < specDailyReturn closes signals i)).card

/-- Modelled from the spec: the number of days with a non-zero daily
    strategy return. -/
def specNonzeroDays (closes signals : List ℚ) : ℕ :=
  ((Finset.range closes.length).filter
    (fun i => 0 < i ∧ specDailyReturn closes signals i ≠ 0)).card

/-- Modelled from the spec: the win rate of the claim, the fraction of
    non-zero-return days that are positive, times 100, rounded, 0 when no
    day has a non-zero return. -/
def specWinRate (closes signals : List ℚ) : ℚ :=
  pyRound2 ((if 0 < specNonzeroDays closes signals then
    (specPosDays closes signals : ℚ) / (specNonzeroDays closes signals : ℚ)
  else 0) * 100)

/-! Theorems. -/

/-- C3 counterexample: with a fallback score of 0.001 the code returns
    round(clip(0.001, 0, 100), 2) = 0.0, not clip(0.001, 0, 100) = 0.001. -/
theorem C3_counterexample :
    (predictFallback (some (1/1000)) 0 0 0).ensemble_score = 0 ∧
    npClip (1/1000) 0 100 = 1/1000 ∧ (0 : ℚ) ≠ 1/1000 := by
  refine ⟨?_, ?_, by norm_num⟩ <;>
    norm_num [predictFallback, pyRound2, roundHalfEven, npClip]

/-- C3 (amended): with zero active models and a fallback score supplied, the
    returned ensemble_score equals clip(fallback, 0, 100) rounded to two
    decimals, tagged as a technical-score fallback with model_count 0. -/
theorem C3_tech_fallback (fb rsi macd_diff ratio : ℚ) :
    (predictFallback (some fb) rsi macd_diff ratio).ensemble_score
      = pyRound2 (npClip fb 0 100) ∧
    (predictFallback (some fb) rsi macd_diff ratio).model_count = 0 ∧
    (predictFallback (some fb) rsi macd_diff ratio).note
      = "fallback_to_tech_score" :=
  ⟨rfl, rfl, rfl⟩

/-- C1 counterexample: at RSI=50, macd_diff=0, ratio=1 the heuristic takes the
    -10 branch (0 is not > 0) and the returned score is 40, not 50; and at
    RSI=0.001 the returned score 55 differs from the unrounded clipped
    heuristic 54.9997. -/
theorem C1_counterexample :
    (predictFallback none 50 0 1).ensemble_score = 40 ∧ (40 : ℚ) ≠ 50 ∧
    (predictFallback none (1/1000) 0 1).ensemble_score = 55 ∧
    npClip (heuristicScore (1/1000) 0 1) 0 100 = 549997/10000 ∧
    (55 : ℚ) ≠ 549997/10000 := by
  refine ⟨?_, by norm_num, ?_, ?_, by norm_num⟩ <;>
    norm_num [predictFallback, pyRound2, roundHalfEven, npClip, heuristicScore]

/-- C1 (amended): with zero active models and no fallback score, the returned
    ensemble_score is the closed-form heuristic clipped to [0,100] and rounded
    to two decimals, tagged as a heuristic fallback; at RSI=50, macd_diff=0,
    ratio=1.0 the returned score is 40.0 (macd_diff = 0 falls in the -10
    branch). -/
theorem C1_heuristic_fallback (rsi macd_diff ratio : ℚ) :
    (predictFallback none rsi macd_diff ratio).ensemble_score
      = pyRound2 (npClip (heuristicScore rsi macd_diff ratio) 0 100) ∧
    (predictFallback none rsi macd_diff ratio).model_count = 0 ∧
    (predictFallback none rsi macd_diff ratio).note = "fallback_heuristic" ∧
    (predictFallback none 50 0 1).ensemble_score = 40 :=
  ⟨rfl, rfl, rfl,
    by norm_num [predictFallback, pyRound2, roundHalfEven, npClip, heuristicScore]⟩

theorem sentimentNorm_nonneg (s : ℚ) : 0 ≤ sentimentNorm s := le_max_left 0 _

theorem sentimentNorm_le (s : ℚ) : sentimentNorm s ≤ 100 :=
  max_le (by norm_num) (min_le_left 100 _)

/-- C5: when ml_model_count is 0 the composite score does not depend on the
    ensemble (ml) score at all, and equals tech*0.65 plus the clamped
    normalized sentiment times 0.35. -/
theorem C5_zero_models_ml_independent (x y : AnalysisResult)
    (ht : x.tech_score = y.tech_score)
    (hs : x.sentiment_score = y.sentiment_score)
    (hx : x.ml_model_count = 0) (hy : y.ml_model_count = 0) :
    composite_score x = composite_score y ∧
    composite_score x
      = x.tech_score * (65/100) + sentimentNorm x.sentiment_score * (35/100) := by
  constructor
  · simp [composite_score, hx, hy, ht, hs]
  · simp [composite_score, hx]

/-- C5 witness: two concrete results differing only in the ml score, both with
    zero active models, get the same composite score. -/
theorem C5_witness :
    composite_score ⟨80, 10, 20, 0⟩ = composite_score ⟨80, 99, 20, 0⟩ ∧
    composite_score ⟨80, 10, 20, 0⟩
      = (80 : ℚ) * (65/100) + sentimentNorm 20 * (35/100) :=
  C5_zero_models_ml_independent ⟨80, 10, 20, 0⟩ ⟨80, 99, 20, 0⟩ rfl rfl rfl rfl

/-- C10: with tech and ml scores in [0,100] and an arbitrary sentiment score,
    the composite score lies in [0,100], because the normalized sentiment is
    clamped to [0,100] before weighting in both branches. -/
theorem C10_composite_bounded (x : AnalysisResult)
    (h0 : 0 ≤ x.tech_score) (h1 : x.tech_score ≤ 100)
    (h2 : 0 ≤ x.ml_score) (h3 : x.ml_score ≤ 100) :
    0 ≤ composite_score x ∧ composite_score x ≤ 100 := by
  have hs0 := sentimentNorm_nonneg x.sentiment_score
  have hs1 := sentimentNorm_le x.sentiment_score
  unfold composite_score
  split_ifs <;> constructor <;> nlinarith

/-- C10 witness: a concrete result with an out-of-range sentiment score still
    gets a composite score in [0,100]. -/
theorem C10_witness :
    0 ≤ composite_score ⟨50, 50, 250, 3⟩ ∧ composite_score ⟨50, 50, 250, 3⟩ ≤ 100 :=
  C10_composite_bounded ⟨50, 50, 250, 3⟩ (by norm_num) (by norm_num)
    (by norm_num) (by norm_num)

theorem trendScore_bounds (r : IndicatorRow) :
    0 ≤ trendScore r ∧ trendScore r ≤ 40 := by
  unfold trendScore
  rcases r.sma_60 with _ | s
  · split_ifs <;> constructor <;> norm_num
  · by_cases h1 : r.sma_20 < r.close <;> by_cases h2 : r.sma_20 < r.sma_5 <;>
      by_cases h3 : r.macd_signal < r.macd <;> by_cases h4 : s < r.close <;>
      simp [h1, h2, h3, h4] <;> norm_num

theorem momScore_bounds (r : IndicatorRow) :
    0 ≤ momScore r ∧ momScore r ≤ 30 := by
  unfold momScore
  split_ifs <;> norm_num

theorem bbScore_bounds (r : IndicatorRow) :
    0 ≤ bbScore r ∧ bbScore r ≤ 25 := by
  unfold bbScore
  split_ifs <;> norm_num

theorem volBonus_bounds (r : IndicatorRow) :
    0 ≤ volBonus r ∧ volBonus r ≤ 5 := by
  unfold volBonus
  rcases r.volume with _ | v <;> rcases r.vol_sma_20 with _ | vs <;>
    simp only [] <;> try split_ifs
  all_goals constructor <;> norm_num

/-- C4: for every indicator row (every combination of sma_60 presence, trend
    direction, Bollinger zone, RSI tier and volume data) the technical
    composite score lies in [0,100]. -/
theorem C4_composite_score_in_range (r : IndicatorRow) :
    0 ≤ get_composite_score r ∧ get_composite_score r ≤ 100 := by
  obtain ⟨t0, t1⟩ := trendScore_bounds r
  obtain ⟨m0, m1⟩ := momScore_bounds r
  obtain ⟨b0, b1⟩ := bbScore_bounds r
  obtain ⟨v0, v1⟩ := volBonus_bounds r
  unfold get_composite_score
  constructor <;> linarith

theorem keyRows_append (a b : List RecRow) (c d : String) :
    keyRows (a ++ b) c d = keyRows a c d ++ keyRows b c d := by
  induction a with
  | nil => simp [keyRows]
  | cons r rest ih =>
      simp only [List.cons_append, keyRows]
      split_ifs <;> simp [ih]

theorem keyRows_deleteKey_self (db : List RecRow) (c d : String) :
    keyRows (deleteKey db c d) c d = [] := by
  induction db with
  | nil => simp [deleteKey, keyRows]
  | cons r rest ih =>
      simp only [deleteKey]
      split_ifs with h
      · exact ih
      · simp [keyRows, h, ih]

theorem keyRows_deleteKey_ne (db : List RecRow) (c d c2 d2 : String)
    (h : ¬(c2 = c ∧ d2 = d)) :
    keyRows (deleteKey db c d) c2 d2 = keyRows db c2 d2 := by
  have hsym : ¬(c = c2 ∧ d = d2) := fun hc => h ⟨hc.1.symm, hc.2.symm⟩
  induction db with
  | nil => simp [deleteKey, keyRows]
  | cons r rest ih =>
      by_cases h1 : r.code = c ∧ r.session_date = d
      · have h2 : ¬(r.code = c2 ∧ r.session_date = d2) := by
          intro hcontra
          exact h ⟨hcontra.1.symm.trans h1.1, hcontra.2.symm.trans h1.2⟩
        simp [deleteKey, keyRows, h1, h2, h, hsym, ih]
      · by_cases h2 : r.code = c2 ∧ r.session_date = d2 <;>
          simp [deleteKey, keyRows, h1, h2, h, hsym, ih]

theorem keyRows_single (r : RecRow) (c d : String) :
    keyRows [r] c d = if r.code = c ∧ r.session_date = d then [r] else [] := by
  simp [keyRows]

theorem upsert_step_preserves (db : List RecRow) (rec : RecInput) (sd : String)
    (hdb : atMostOnePerKey db) :
    atMostOnePerKey (deleteKey db rec.code sd ++ [mkRow rec sd]) := by
  intro c2 d2
  rw [keyRows_append, keyRows_single]
  by_cases hk : c2 = rec.code ∧ d2 = sd
  · obtain ⟨hc, hd⟩ := hk
    subst hc; subst hd
    rw [keyRows_deleteKey_self]
    split_ifs <;> simp
  · rw [keyRows_deleteKey_ne _ _ _ _ _ hk]
    have hrow : ¬((mkRow rec sd).code = c2 ∧ (mkRow rec sd).session_date = d2) := by
      intro hcontra
      exact hk ⟨hcontra.1.symm, hcontra.2.symm⟩
    rw [if_neg hrow]
    simpa using hdb c2 d2

/-- C7: the delete-then-insert upsert keeps at most one recommendation row per
    (code, session_date) key for any persisted batch, and persisting the same
    entity twice on one session date leaves exactly the single row of the
    second run. -/
theorem C7_upsert_idempotent (recs : List RecInput) (sd : String)
    (db : List RecRow) (hdb : atMostOnePerKey db)
    (r1 r2 : RecInput) (hc : r1.code = r2.code) (db2 : List RecRow) :
    atMostOnePerKey (save_to_db recs sd db) ∧
    keyRows (save_to_db [r2] sd (save_to_db [r1] sd db2)) r2.code sd
      = [mkRow r2 sd] := by
  constructor
  · induction recs generalizing db with
    | nil => simpa [save_to_db] using hdb
    | cons rec rest ih =>
        have hstep := upsert_step_preserves db rec sd hdb
        simpa [save_to_db] using
          ih (deleteKey db rec.code sd ++ [mkRow rec sd]) hstep
  · have hrun : ∀ (r : RecInput) (base : List RecRow),
        save_to_db [r] sd base = deleteKey base r.code sd ++ [mkRow r sd] := by
      intro r base
      simp [save_to_db]
    rw [hrun, keyRows_append, keyRows_deleteKey_self, keyRows_single]
    simp [mkRow]

/-- C7 witness: persisting a sample batch into an empty store satisfies the
    key invariant, and two runs for the same code on one date leave exactly
    the second row. -/
theorem C7_witness :
    atMostOnePerKey (save_to_db [sampleRec1] "2026-01-05" []) ∧
    keyRows (save_to_db [sampleRec2] "2026-01-05"
        (save_to_db [sampleRec1] "2026-01-05" [])) sampleRec2.code "2026-01-05"
      = [mkRow sampleRec2 "2026-01-05"] :=
  C7_upsert_idempotent [sampleRec1] "2026-01-05" []
    (by intro c d; simp [keyRows]) sampleRec1 sampleRec2 rfl []

theorem update5_none_of_recorded (fetch : ℕ → Option ℚ) (action : String)
    (entry_price : ℚ) (row : OutcomeRow) (h : row.price_5d.isSome) :
    update5 fetch action entry_price row = none := by
  obtain ⟨p, hp⟩ := Option.isSome_iff_exists.1 h
  simp [update5, horizonStep, hp]

theorem update10_none_of_recorded (fetch : ℕ → Option ℚ) (action : String)
    (entry_price : ℚ) (row : OutcomeRow) (h : row.price_10d.isSome) :
    update10 fetch action entry_price row = none := by
  obtain ⟨p, hp⟩ := Option.isSome_iff_exists.1 h
  rcases h5 : horizonStep fetch action entry_price row.price_5d 5 with _ | u5
  · simp [update10, h5]
  · simp only [update10]
    rw [h5, hp]
    simp [horizonStep]

theorem update20_none_of_recorded (fetch : ℕ → Option ℚ) (action : String)
    (entry_price : ℚ) (row : OutcomeRow) (h : row.price_20d.isSome) :
    update20 fetch action entry_price row = none := by
  obtain ⟨p, hp⟩ := Option.isSome_iff_exists.1 h
  rcases h5 : horizonStep fetch action entry_price row.price_5d 5 with _ | u5
  · simp [update20, h5]
  · rcases h10 : horizonStep fetch action entry_price row.price_10d 10 with _ | u10
    · simp [update20, h5, h10]
    · simp only [update20]
      rw [h5, h10, hp]
      simp [horizonStep]

/-- C8: record_outcomes never rewrites an already recorded horizon — whenever
    a horizon's price field is set before the run, that horizon's price,
    return and correctness fields are unchanged afterwards. -/
theorem C8_horizon_fields_write_once (fetch : ℕ → Option ℚ) (action : String)
    (entry_price : ℚ) (target_price : Option ℚ) (row : OutcomeRow) :
    (row.price_5d.isSome →
      (record_outcomes_row fetch action entry_price target_price row).price_5d
          = row.price_5d ∧
      (record_outcomes_row fetch action entry_price target_price row).return_5d
          = row.return_5d ∧
      (record_outcomes_row fetch action entry_price target_price row).correct_5d
          = row.correct_5d) ∧
    (row.price_10d.isSome →
      (record_outcomes_row fetch action entry_price target_price row).price_10d
          = row.price_10d ∧
      (record_outcomes_row fetch action entry_price target_price row).return_10d
          = row.return_10d ∧
      (record_outcomes_row fetch action entry_price target_price row).correct_10d
          = row.correct_10d) ∧
    (row.price_20d.isSome →
      (record_outcomes_row fetch action entry_price target_price row).price_20d
          = row.price_20d ∧
      (record_outcomes_row fetch action entry_price target_price row).return_20d
          = row.return_20d ∧
      (record_outcomes_row fetch action entry_price target_price row).correct_20d
          = row.correct_20d) := by
  refine ⟨fun h ↦ ?_, fun h ↦ ?_, fun h ↦ ?_⟩
  · rw [record_outcomes_row, update5_none_of_recorded fetch action entry_price row h]
    exact ⟨rfl, rfl, rfl⟩
  · rw [record_outcomes_row, update10_none_of_recorded fetch action entry_price row h]
    exact ⟨rfl, rfl, rfl⟩
  · rw [record_outcomes_row, update20_none_of_recorded fetch action entry_price row h]
    exact ⟨rfl, rfl, rfl⟩

/-- C8 witness: on a fully recorded sample row, a run with fresh prices
    available leaves every horizon field untouched. -/
theorem C8_witness :
    ((record_outcomes_row (fun _ => some 130) "BUY" 100 (some 90)
        sampleOutcomeRow).price_5d = sampleOutcomeRow.price_5d ∧
      (record_outcomes_row (fun _ => some 130) "BUY" 100 (some 90)
        sampleOutcomeRow).return_5d = sampleOutcomeRow.return_5d ∧
      (record_outcomes_row (fun _ => some 130) "BUY" 100 (some 90)
        sampleOutcomeRow).correct_5d = sampleOutcomeRow.correct_5d) ∧
    ((record_outcomes_row (fun _ => some 130) "BUY" 100 (some 90)
        sampleOutcomeRow).price_10d = sampleOutcomeRow.price_10d ∧
      (record_outcomes_row (fun _ => some 130) "BUY" 100 (some 90)
        sampleOutcomeRow).return_10d = sampleOutcomeRow.return_10d ∧
      (record_outcomes_row (fun _ => some 130) "BUY" 100 (some 90)
        sampleOutcomeRow).correct_10d = sampleOutcomeRow.correct_10d) ∧
    ((record_outcomes_row (fun _ => some 130) "BUY" 100 (some 90)
        sampleOutcomeRow).price_20d = sampleOutcomeRow.price_20d ∧
      (record_outcomes_row (fun _ => some 130) "BUY" 100 (some 90)
        sampleOutcomeRow).return_20d = sampleOutcomeRow.return_20d ∧
      (record_outcomes_row (fun _ => some 130) "BUY" 100 (some 90)
        sampleOutcomeRow).correct_20d = sampleOutcomeRow.correct_20d) :=
  ⟨(C8_horizon_fields_write_once (fun _ => some 130) "BUY" 100 (some 90)
      sampleOutcomeRow).1 (by simp [sampleOutcomeRow]),
    (C8_horizon_fields_write_once (fun _ => some 130) "BUY" 100 (some 90)
      sampleOutcomeRow).2.1 (by simp [sampleOutcomeRow]),
    (C8_horizon_fields_write_once (fun _ => some 130) "BUY" 100 (some 90)
      sampleOutcomeRow).2.2 (by simp [sampleOutcomeRow])⟩

theorem jaccard_comm (a b : Finset String) : jaccard a b = jaccard b a := by
  unfold jaccard
  rw [Finset.inter_comm, Finset.union_comm]

theorem nonempty_of_jaccard_high (a b : Finset String)
    (h : (76/100 : ℚ) ≤ jaccard a b) : a.Nonempty ∧ b.Nonempty := by
  constructor
  · rcases Finset.eq_empty_or_nonempty a with ha | ha
    · rw [jaccard, ha] at h
      simp at h
      linarith
    · exact ha
  · rcases Finset.eq_empty_or_nonempty b with hb | hb
    · rw [jaccard, hb] at h
      simp at h
      linarith
    · exact hb

/-- C9: two items from different domains whose title token sets have Jaccard
    similarity at least 0.76 are collapsed to the first (exactly one
    survives); two items from one domain, listed newest first as the fetch
    provides them, are collapsed to the chronologically latest one. -/
theorem C9_dedup_pairs (a b : NewsItem) :
    (a.domain ≠ b.domain →
      (76/100 : ℚ) ≤ jaccard a.titleTokens b.titleTokens →
      deduplicate_news [a, b] = [a]) ∧
    (a.domain = b.domain → a.domain ≠ "" →
      a.days_ago_int < b.days_ago_int →
      deduplicate_news [a, b] = [a]) := by
  constructor
  · intro hd hj
    obtain ⟨ha, hb⟩ := nonempty_of_jaccard_high _ _ hj
    have hj2 : (3/4 : ℚ) < jaccard b.titleTokens a.titleTokens := by
      rw [jaccard_comm]
      linarith
    have hdd : domainDedup [] [a, b] = [a, b] := by
      by_cases hda : a.domain = ""
      · have hdb : b.domain ≠ "" := fun hbe => hd (hda.trans hbe.symm)
        simp [domainDedup, hda, hdb]
      · have hba : b.domain ≠ a.domain := fun hbe => hd hbe.symm
        have hmem : b.domain ∉ [a.domain] := by simp [hba]
        by_cases hdb : b.domain = "" <;>
          simp [domainDedup, hda, hdb, hba, hmem]
    unfold deduplicate_news
    rw [hdd]
    simp [titleDedup, ha, hb, hj2]
  · intro hd hne _
    have hdd : domainDedup [] [a, b] = [a] := by
      have hbd : b.domain ≠ "" := hd ▸ hne
      have hmem : b.domain ∈ [a.domain] := by simp [hd.symm]
      simp [domainDedup, hne, hbd, hd.symm, hmem]
    unfold deduplicate_news
    rw [hdd]
    simp [titleDedup]

/-- C9 witness: the near-duplicate cross-domain pair keeps exactly its first
    item, and the same-domain pair keeps exactly its most recent item. -/
theorem C9_witness :
    deduplicate_news [newsA, newsB] = [newsA] ∧
    deduplicate_news [newsC, newsD] = [newsC] :=
  ⟨(C9_dedup_pairs newsA newsB).1 (by decide) (by
      have h1 : (newsA.titleTokens ∩ newsB.titleTokens).card = 4 := by decide
      have h2 : (newsA.titleTokens ∪ newsB.titleTokens).card = 5 := by decide
      unfold jaccard
      rw [h1, h2]
      norm_num),
    (C9_dedup_pairs newsC newsD).2 rfl (by decide) (by decide)⟩

theorem winCount_example : winCount [100, 110] [1, 1] = 1 := by
  norm_num [winCount, Finset.range_succ, Finset.range_one, Finset.filter_insert,
    Finset.filter_singleton, posDayB, strategyReturn, rawStrategyReturn, shiftedSignal,
    pctChange, tradeChange, priceAt, signalAt, List.getD]

theorem nonzeroCount_example : nonzeroCount [100, 110] [1, 1] = 2 := by
  norm_num [nonzeroCount, Finset.range_succ, Finset.range_one, Finset.filter_insert,
    Finset.filter_singleton, nzDayB, strategyReturn, rawStrategyReturn, shiftedSignal,
    pctChange, tradeChange, priceAt, signalAt, List.getD]

theorem specPosDays_example : specPosDays [100, 110] [1, 1] = 1 := by
  norm_num [specPosDays, Finset.range_succ, Finset.range_one, Finset.filter_insert,
    Finset.filter_singleton, specDailyReturn, priceAt, signalAt, List.getD]

theorem specNonzeroDays_example : specNonzeroDays [100, 110] [1, 1] = 1 := by
  norm_num [specNonzeroDays, Finset.range_succ, Finset.range_one, Finset.filter_insert,
    Finset.filter_singleton, specDailyReturn, priceAt, signalAt, List.getD]

/-- C2 counterexample: on closes [100, 110] with the constant long signal
    [1, 1] the single non-zero-return day is positive, so the claim predicts
    a win rate of 100, but run reports 50 — pandas counts the first row's NaN
    strategy return into the != 0 denominator. -/
theorem C2_counterexample :
    winRatePct [100, 110] [1, 1] = 50 ∧ specWinRate [100, 110] [1, 1] = 100 ∧
    (50 : ℚ) ≠ 100 := by
  refine ⟨?_, ?_, by norm_num⟩
  · norm_num [winRatePct, winCount_example, nonzeroCount_example, pyRound2, roundHalfEven]
  · norm_num [specWinRate, specPosDays_example, specNonzeroDays_example, pyRound2,
      roundHalfEven]

theorem strategyReturn_zero (closes signals : List ℚ) :
    strategyReturn closes signals 0 = none := by
  simp [strategyReturn, rawStrategyReturn, shiftedSignal, tradeChange, pctChange]

theorem strategyReturn_eq_spec (closes signals : List ℚ)
    (hpos : ∀ x ∈ closes, 0 < x) (i : ℕ) (h1 : 0 < i) (h2 : i < closes.length) :
    strategyReturn closes signals i = some (specDailyReturn closes signals i) := by
  have hi : i ≠ 0 := h1.ne'
  have hlt : i - 1 < closes.length := lt_of_le_of_lt (Nat.sub_le i 1) h2
  have hprev : 0 < priceAt closes (i-1) := by
    rw [priceAt, List.getD_eq_getElem closes 0 hlt]
    exact hpos _ (List.getElem_mem _)
  have hne : priceAt closes (i-1) ≠ 0 := ne_of_gt hprev
  simp only [strategyReturn, rawStrategyReturn, pctChange, shiftedSignal, tradeChange,
    specDailyReturn, hi, if_false, if_neg hne]
  by_cases hch : signalAt signals i = signalAt signals (i-1)
  · simp [hch]
  · have habs : 0 < |signalAt signals i - signalAt signals (i-1)| :=
      abs_pos.mpr (sub_ne_zero.mpr hch)
    simp [hch, habs]

theorem winCount_eq_spec (closes signals : List ℚ) (hpos : ∀ x ∈ closes, 0 < x) :
    winCount closes signals = specPosDays closes signals := by
  unfold winCount specPosDays
  congr 1
  apply Finset.filter_congr
  intro i hi
  rw [Finset.mem_range] at hi
  rcases Nat.eq_zero_or_pos i with h0 | h0
  · subst h0
    simp [strategyReturn_zero, posDayB]
  · rw [strategyReturn_eq_spec closes signals hpos i h0 hi]
    simp [posDayB, h0]

theorem nonzeroCount_eq_spec (closes signals : List ℚ) (hne : closes ≠ [])
    (hpos : ∀ x ∈ closes, 0 < x) :
    nonzeroCount closes signals = specNonzeroDays closes signals + 1 := by
  unfold nonzeroCount specNonzeroDays
  have hsplit : (Finset.range closes.length).filter
      (fun i => nzDayB (strategyReturn closes signals i) = true)
      = insert 0 ((Finset.range closes.length).filter
        (fun i => 0 < i ∧ specDailyReturn closes signals i ≠ 0)) := by
    ext j
    simp only [Finset.mem_insert, Finset.mem_filter, Finset.mem_range]
    constructor
    · rintro ⟨hj, hnz⟩
      rcases Nat.eq_zero_or_pos j with h0 | h0
      · exact Or.inl h0
      · refine Or.inr ⟨hj, h0, ?_⟩
        rw [strategyReturn_eq_spec closes signals hpos j h0 hj] at hnz
        simpa [nzDayB] using hnz
    · rintro (h0 | ⟨hj, h0, hnz⟩)
      · subst h0
        refine ⟨?_, by simp [strategyReturn_zero, nzDayB]⟩
        exact List.length_pos.mpr hne
      · refine ⟨hj, ?_⟩
        rw [strategyReturn_eq_spec closes signals hpos j h0 hj]
        simpa [nzDayB] using hnz
  rw [hsplit, Finset.card_insert_of_not_mem (by simp)]

/-- C2 (amended): for positive price series the reported win rate is the
    number of positive-return days divided by the number of non-zero-return
    days PLUS ONE, times 100, rounded — the extra denominator count is the
    first row, whose NaN strategy return satisfies the pandas != 0 test, and
    it also means the zero-denominator fallback never fires on non-empty
    input. -/
theorem C2_win_rate_shifted_denominator (closes signals : List ℚ) (capital : ℚ)
    (hlen : closes.length = signals.length) (hne : closes ≠ [])
    (hpos : ∀ x ∈ closes, 0 < x) :
    ∃ r, backtest_run closes signals capital = some r ∧
      r.win_rate = pyRound2 ((specPosDays closes signals : ℚ)
        / ((specNonzeroDays closes signals : ℚ) + 1) * 100) := by
  refine ⟨{ total_return_pct := totalReturnPct closes signals
            mdd_pct := mddPct closes signals
            win_rate := winRatePct closes signals
            final_capital := finalCapital closes signals capital }, ?_, ?_⟩
  · unfold backtest_run
    rw [if_neg]
    push_neg
    exact ⟨by simpa [List.isEmpty_iff] using hne, hlen⟩
  · show winRatePct closes signals = _
    unfold winRatePct
    rw [winCount_eq_spec closes signals hpos, nonzeroCount_eq_spec closes signals hne hpos,
      if_pos (Nat.succ_pos _)]
    push_cast
    ring_nf

/-- C2 witness: the amended win-rate formula instantiated on the concrete
    two-day run. -/
theorem C2_witness :
    ∃ r, backtest_run [100, 110] [1, 1] 10000000 = some r ∧
      r.win_rate = pyRound2 ((specPosDays [100, 110] [1, 1] : ℚ)
        / ((specNonzeroDays [100, 110] [1, 1] : ℚ) + 1) * 100) :=
  C2_win_rate_shifted_denominator [100, 110] [1, 1] 10000000 rfl (by simp)
    (by norm_num)

theorem signalAt_replicate_zero (n i : ℕ) :
    signalAt (List.replicate n (0 : ℚ)) i = 0 := by
  unfold signalAt
  rcases lt_or_ge i n with h | h
  · rw [List.getD_eq_getElem _ 0 (by simpa using h)]
    simp
  · rw [List.getD_eq_default _ 0 (by simpa using h)]

theorem strategyReturn_flat (closes : List ℚ) (n i : ℕ) :
    strategyReturn closes (List.replicate n (0 : ℚ)) i = none ∨
    strategyReturn closes (List.replicate n (0 : ℚ)) i = some 0 := by
  have htr : tradeChange (List.replicate n (0 : ℚ)) i = 0 := by
    unfold tradeChange
    rcases Nat.eq_zero_or_pos i with h0 | h0
    · simp [h0]
    · simp [h0.ne', signalAt_replicate_zero]
  unfold strategyReturn
  rw [htr, if_neg (lt_irrefl 0)]
  unfold rawStrategyReturn
  rcases Nat.eq_zero_or_pos i with h0 | h0
  · subst h0
    simp [shiftedSignal]
  · rcases hp : pctChange closes i with _ | p
    · simp [shiftedSignal, h0.ne', hp]
    · simp [shiftedSignal, h0.ne', hp, signalAt_replicate_zero]

theorem filledReturn_flat (closes : List ℚ) (n i : ℕ) :
    filledReturn closes (List.replicate n (0 : ℚ)) i = 0 := by
  unfold filledReturn
  rcases strategyReturn_flat closes n i with h | h <;> rw [h] <;> rfl

theorem cumReturn_flat (closes : List ℚ) (n i : ℕ) :
    cumReturn closes (List.replicate n (0 : ℚ)) i = 1 := by
  unfold cumReturn
  split_ifs with h
  · rfl
  · unfold cumprodReturn
    exact Finset.prod_eq_one (fun j _ => by rw [filledReturn_flat]; norm_num)

theorem rollingMax_flat (closes : List ℚ) (n i : ℕ) :
    rollingMax closes (List.replicate n (0 : ℚ)) i = 1 := by
  induction i with
  | zero => simp [rollingMax, cumReturn_flat]
  | succ k ih => simp [rollingMax, ih, cumReturn_flat]

theorem minDrawdown_flat (closes : List ℚ) (n i : ℕ) :
    minDrawdown closes (List.replicate n (0 : ℚ)) i = 0 := by
  induction i with
  | zero => norm_num [minDrawdown, cumReturn_flat, rollingMax_flat]
  | succ k ih => norm_num [minDrawdown, ih, cumReturn_flat, rollingMax_flat]

theorem pyRound2_zero : pyRound2 0 = 0 := by
  norm_num [pyRound2, roundHalfEven]

theorem pyInt_intCast (n : ℤ) : pyInt (n : ℚ) = n := by
  unfold pyInt
  split_ifs with h
  · exact Int.floor_intCast n
  · exact Int.ceil_intCast n

/-- C6: on any non-empty price series, an all-flat signal series returns a
    total return of 0 and a final capital equal to the (whole-won) initial
    capital; the drawdown and win rate are 0 as well. -/
theorem C6_flat_signal_round_trip (closes : List ℚ) (capital : ℤ)
    (hne : closes ≠ []) :
    backtest_run closes (List.replicate closes.length (0 : ℚ)) (capital : ℚ)
      = some { total_return_pct := 0, mdd_pct := 0, win_rate := 0
               final_capital := capital } := by
  have h1 : totalReturnPct closes (List.replicate closes.length (0 : ℚ)) = 0 := by
    unfold totalReturnPct
    rw [cumReturn_flat]
    norm_num [pyRound2_zero]
  have h2 : mddPct closes (List.replicate closes.length (0 : ℚ)) = 0 := by
    unfold mddPct
    rw [minDrawdown_flat]
    norm_num [pyRound2_zero]
  have h3 : winRatePct closes (List.replicate closes.length (0 : ℚ)) = 0 := by
    have hwz : winCount closes (List.replicate closes.length (0 : ℚ)) = 0 := by
      unfold winCount
      rw [Finset.card_eq_zero, Finset.filter_eq_empty_iff]
      intro i _
      rcases strategyReturn_flat closes closes.length i with h | h <;>
        simp [h, posDayB]
    unfold winRatePct
    rw [hwz]
    split_ifs <;> norm_num [pyRound2_zero]
  have h4 : finalCapital closes (List.replicate closes.length (0 : ℚ)) (capital : ℚ)
      = capital := by
    unfold finalCapital
    rw [cumReturn_flat]
    rw [one_mul, pyInt_intCast]
  unfold backtest_run
  rw [if_neg (by push_neg; exact ⟨by simpa [List.isEmpty_iff] using hne, by simp⟩)]
  rw [h1, h2, h3, h4]

/-- C6 witness: a concrete one-day run with a flat signal keeps the capital. -/
theorem C6_witness :
    backtest_run [100] (List.replicate (List.length [(100 : ℚ)]) (0 : ℚ)) ((5 : ℤ) : ℚ)
      = some { total_return_pct := 0, mdd_pct := 0, win_rate := 0, final_capital := 5 } :=
  C6_flat_signal_round_trip [100] 5 (by simp)
